import Mathlib

/-!
Verification of `pkg/resources/k8sgpt.go` from the k8sgpt-operator repository.

The Go file builds five Kubernetes objects (Service, ServiceAccount,
ClusterRole, ClusterRoleBinding, Deployment) from a `v1alpha1.K8sGPT`
configuration and reconciles them against a cluster (`Sync` / `doSync`).
We embed the data model and the functions shallowly: pure builders become
pure Lean functions; the effectful `Sync`/`doSync` loop becomes a function
from an environment oracle (`Client`, giving each cluster call's outcome)
to the list of cluster calls issued (the trace) together with the returned
error.  Strings stand in for Go strings; Kubernetes API errors are the
four classes the file distinguishes.
-/

namespace K8sgpt

/-! ## Kubernetes core types (the fields this file touches) -/

/-- metav1.OwnerReference, restricted to the fields the file sets.
`controller` and `blockOwnerDeletion` are `*bool` in Go, set via
`utils.PtrBool`; the pointer indirection is dropped. -/
structure OwnerReference where
  kind : String
  name : String
  uid : String
  apiVersion : String
  controller : Bool
  blockOwnerDeletion : Bool
deriving DecidableEq, Repr

/-- metav1.ObjectMeta, restricted to the fields the file sets or reads.
`ns` is Go's `Namespace` (a Lean keyword). -/
structure ObjectMeta where
  name : String := ""
  ns : String := ""
  labels : List (String × String) := []
  ownerReferences : List OwnerReference := []
deriving DecidableEq, Repr

/-- corev1.SecretKeySelector (LocalObjectReference.Name flattened into `name`). -/
structure SecretKeySelector where
  name : String
  key : String
deriving DecidableEq, Repr

/-- corev1.EnvVarSource, restricted to the one member the file uses. -/
structure EnvVarSource where
  secretKeyRef : Option SecretKeySelector := none
deriving DecidableEq, Repr

/-- corev1.EnvVar. -/
structure EnvVar where
  name : String
  value : String := ""
  valueFrom : Option EnvVarSource := none
deriving DecidableEq, Repr

/-- corev1.ServicePort (only `Port` is set). -/
structure ServicePort where
  port : Int
deriving DecidableEq, Repr

/-- corev1.ServiceSpec, restricted to the fields the file sets. -/
structure ServiceSpec where
  selector : List (String × String) := []
  ports : List ServicePort := []
deriving DecidableEq, Repr

/-- corev1.Service. `status` is never set by the file; it is kept (as an
opaque string placeholder for ServiceStatus) so that the spec-only merge
in `doSync` can be shown to preserve it. -/
structure Service where
  metadata : ObjectMeta := {}
  spec : ServiceSpec := {}
  status : String := ""
deriving DecidableEq, Repr

/-- corev1.ServiceAccount (only metadata is set). -/
structure ServiceAccount where
  metadata : ObjectMeta := {}
deriving DecidableEq, Repr

/-- rbacv1.PolicyRule. -/
structure PolicyRule where
  apiGroups : List String := []
  resources : List String := []
  verbs : List String := []
deriving DecidableEq, Repr

/-- rbacv1.ClusterRole. -/
structure ClusterRole where
  metadata : ObjectMeta := {}
  rules : List PolicyRule := []
deriving DecidableEq, Repr

/-- rbacv1.Subject. -/
structure Subject where
  kind : String
  name : String
  ns : String
deriving DecidableEq, Repr

/-- rbacv1.RoleRef. -/
structure RoleRef where
  kind : String
  name : String
  apiGroup : String
deriving DecidableEq, Repr

/-- rbacv1.ClusterRoleBinding. -/
structure ClusterRoleBinding where
  metadata : ObjectMeta := {}
  subjects : List Subject := []
  roleRef : RoleRef := { kind := "", name := "", apiGroup := "" }
deriving DecidableEq, Repr

/-- corev1.ContainerPort (only `ContainerPort` is set). -/
structure ContainerPort where
  containerPort : Int
deriving DecidableEq, Repr

/-- corev1.ResourceList: the file only ever supplies cpu and memory
quantities, kept as their literal quantity strings. -/
structure ResourceList where
  cpu : String := ""
  memory : String := ""
deriving DecidableEq, Repr

/-- corev1.ResourceRequirements. -/
structure ResourceRequirements where
  limits : ResourceList := {}
  requests : ResourceList := {}
deriving DecidableEq, Repr

/-- corev1.VolumeMount. -/
structure VolumeMount where
  mountPath : String
  name : String
deriving DecidableEq, Repr

/-- corev1.Volume: the only VolumeSource member the file uses is EmptyDir,
kept as a presence flag. -/
structure Volume where
  name : String
  emptyDir : Bool := false
deriving DecidableEq, Repr

/-- corev1.Container, restricted to the fields the file sets. -/
structure Container where
  name : String := ""
  imagePullPolicy : String := ""
  image : String := ""
  args : List String := []
  env : List EnvVar := []
  ports : List ContainerPort := []
  resources : ResourceRequirements := {}
  volumeMounts : List VolumeMount := []
deriving DecidableEq, Repr

/-- corev1.PodSpec, restricted to the fields the file sets. -/
structure PodSpec where
  serviceAccountName : String := ""
  containers : List Container := []
  volumes : List Volume := []
deriving DecidableEq, Repr

/-- corev1.PodTemplateSpec. -/
structure PodTemplateSpec where
  metadata : ObjectMeta := {}
  spec : PodSpec := {}
deriving DecidableEq, Repr

/-- metav1.LabelSelector (only MatchLabels is used). -/
structure LabelSelector where
  matchLabels : List (String × String) := []
deriving DecidableEq, Repr

/-- appsv1.DeploymentSpec, restricted to the fields the file sets.
`replicas` is `*int32` in Go; the pointer indirection is dropped. -/
structure DeploymentSpec where
  replicas : Int := 0
  selector : LabelSelector := {}
  template : PodTemplateSpec := {}
deriving DecidableEq, Repr

/-- appsv1.DeploymentStatus: never written by the file; a representative
subset of its counters is kept so the spec-only merge in `doSync` can be
shown to preserve it. -/
structure DeploymentStatus where
  replicas : Int := 0
  readyReplicas : Int := 0
  availableReplicas : Int := 0
deriving DecidableEq, Repr

/-- appsv1.Deployment. -/
structure Deployment where
  metadata : ObjectMeta := {}
  spec : DeploymentSpec := {}
  status : DeploymentStatus := {}
deriving DecidableEq, Repr

/-! ## The configuration type (api/v1alpha1)

The `v1alpha1` package is part of the repository but outside the provided
source tree; its fields are reconstructed from how `k8sgpt.go` reads them
and from the spec's data-model section ("identity (name, namespace, kind,
API version, unique id), and application spec fields (container image
repository/version, AI backend/model/engine/base-url, optional secret
reference, optional remote-cache credential reference)"). -/

/-- Modelled from the spec: the secret reference used for the AI backend
password (`config.Spec.AI.Secret`, read via `.Name` and `.Key`). -/
structure SecretRef where
  name : String
  key : String
deriving DecidableEq, Repr

/-- Modelled from the spec: the remote-cache credential secret reference
(`config.Spec.RemoteCache.Credentials`, read via `.Name`). -/
structure CredentialsRef where
  name : String
deriving DecidableEq, Repr

/-- Modelled from the spec: the remote-cache block with its two
"mutually-exclusive provider-specific credential references".  The file
only tests `Azure`/`S3` for nil-ness, so their payloads are `Unit`. -/
structure RemoteCache where
  credentials : CredentialsRef
  azure : Option Unit := none
  s3 : Option Unit := none
deriving DecidableEq, Repr

/-- Modelled from the spec: the `AI` block of the configuration spec
(backend, model, engine, base-url, optional secret reference). -/
structure AISpec where
  backend : String
  model : String := ""
  engine : String := ""
  baseUrl : String := ""
  secret : Option SecretRef := none
deriving DecidableEq, Repr

/-- Modelled from the spec: the configuration spec block (container image
repository/version, AI block, optional remote-cache block). -/
structure K8sGPTSpec where
  repository : String := ""
  version : String := ""
  ai : AISpec := { backend := "" }
  remoteCache : Option RemoteCache := none
deriving DecidableEq, Repr

/-- Modelled from the spec: the `v1alpha1.K8sGPT` configuration object,
with the identity fields the file reads (Kind, Name, UID, APIVersion,
Namespace) and the spec block. -/
structure K8sGPT where
  kind : String := ""
  name : String := ""
  uid : String := ""
  apiVersion : String := ""
  ns : String := ""
  spec : K8sGPTSpec := {}
deriving DecidableEq, Repr

/-- Modelled from the spec: `v1alpha1.AzureOpenAI`, "the
Azure-OpenAI-equivalent value" of the backend field. -/
def AzureOpenAI : String := "azureopenai"

/-! ## The builders -/

/-- The `DeploymentName` constant. -/
def DeploymentName : String := "k8sgpt-deployment"

/-- `GetService`: the desired Service.  Go returns `(*Service, error)`;
the error is `Option String`. -/
def GetService (config : K8sGPT) : Service × Option String :=
  let service : Service :=
    { metadata :=
        { name := "k8sgpt"
          ns := config.ns
          ownerReferences :=
            [{ kind := config.kind
               name := config.name
               uid := config.uid
               apiVersion := config.apiVersion
               blockOwnerDeletion := true
               controller := true }] }
      spec :=
        { selector := [("app", DeploymentName)]
          ports := [{ port := 8080 }] } }
  (service, none)

/-- `GetServiceAccount`: the desired ServiceAccount. -/
def GetServiceAccount (config : K8sGPT) : ServiceAccount × Option String :=
  let serviceAccount : ServiceAccount :=
    { metadata :=
        { name := "k8sgpt"
          ns := config.ns
          ownerReferences :=
            [{ kind := config.kind
               name := config.name
               uid := config.uid
               apiVersion := config.apiVersion
               blockOwnerDeletion := true
               controller := true }] } }
  (serviceAccount, none)

/-- `GetClusterRoleBinding`: the desired ClusterRoleBinding
(cluster-scoped: no namespace on its own metadata). -/
def GetClusterRoleBinding (config : K8sGPT) : ClusterRoleBinding × Option String :=
  let clusterRoleBinding : ClusterRoleBinding :=
    { metadata :=
        { name := "k8sgpt"
          ownerReferences :=
            [{ kind := config.kind
               name := config.name
               uid := config.uid
               apiVersion := config.apiVersion
               blockOwnerDeletion := true
               controller := true }] }
      subjects := [{ kind := "ServiceAccount", name := "k8sgpt", ns := config.ns }]
      roleRef := { kind := "ClusterRole", name := "k8sgpt", apiGroup := "rbac.authorization.k8s.io" } }
  (clusterRoleBinding, none)

/-- `GetClusterRole`: the desired ClusterRole. -/
def GetClusterRole (config : K8sGPT) : ClusterRole × Option String :=
  let clusterRole : ClusterRole :=
    { metadata :=
        { name := "k8sgpt"
          ownerReferences :=
            [{ kind := config.kind
               name := config.name
               uid := config.uid
               apiVersion := config.apiVersion
               blockOwnerDeletion := true
               controller := true }] }
      rules :=
        [{ apiGroups := ["*"]
           resources := ["*"]
           verbs := ["create", "list", "get", "watch", "delete"] },
         { apiGroups := ["apiextensions.k8s.io"]
           resources := ["*"]
           verbs := ["*"] }] }
  (clusterRole, none)

/-- Go's `deployment.Spec.Template.Spec.Containers[0].Env = append(..., v)`:
append an environment variable to the first container.  The containers
list the builder constructs is a one-element literal, so the empty case is
never reached. -/
def Deployment.appendEnv (d : Deployment) (v : EnvVar) : Deployment :=
  match d.spec.template.spec.containers with
  | [] => d
  | c :: cs =>
      { d with spec :=
          { d.spec with template :=
              { d.spec.template with spec :=
                  { d.spec.template.spec with
                      containers := { c with env := c.env ++ [v] } :: cs } } } }

/-- `GetDeployment`: the desired Deployment.  Mirrors the Go function:
the base object literal, then the conditional appends (password,
remote-cache credentials, base URL), then the engine check, which on
failure returns `&appsv1.Deployment{}` (the empty object `{}`) together
with the validation error. -/
def GetDeployment (config : K8sGPT) : Deployment × Option String :=
  let image := config.spec.repository ++ ":" ++ config.spec.version
  let replicas : Int := 1
  let deployment : Deployment :=
    { metadata :=
        { name := DeploymentName
          ns := config.ns
          ownerReferences :=
            [{ kind := config.kind
               name := config.name
               uid := config.uid
               apiVersion := config.apiVersion
               blockOwnerDeletion := true
               controller := true }] }
      spec :=
        { replicas := replicas
          selector := { matchLabels := [("app", DeploymentName)] }
          template :=
            { metadata := { labels := [("app", DeploymentName)] }
              spec :=
                { serviceAccountName := "k8sgpt"
                  containers :=
                    [{ name := "k8sgpt"
                       imagePullPolicy := "Always"
                       image := image
                       args := ["serve"]
                       env :=
                         [{ name := "K8SGPT_MODEL", value := config.spec.ai.model },
                          { name := "K8SGPT_BACKEND", value := config.spec.ai.backend },
                          { name := "XDG_CONFIG_HOME", value := "/k8sgpt-data/.config" },
                          { name := "XDG_CACHE_HOME", value := "/k8sgpt-data/.cache" }]
                       ports := [{ containerPort := 8080 }]
                       resources :=
                         { limits := { cpu := "1", memory := "512Mi" }
                           requests := { cpu := "0.2", memory := "156Mi" } }
                       volumeMounts := [{ mountPath := "/k8sgpt-data", name := "k8sgpt-vol" }] }]
                  volumes := [{ name := "k8sgpt-vol", emptyDir := true }] } } } }
  let deployment :=
    match config.spec.ai.secret with
    | some secret =>
        deployment.appendEnv
          { name := "K8SGPT_PASSWORD"
            valueFrom := some { secretKeyRef := some { name := secret.name, key := secret.key } } }
    | none => deployment
  let deployment :=
    match config.spec.remoteCache with
    | some rc =>
        let addRemoteCacheEnvVar := fun (d : Deployment) (name key : String) =>
          d.appendEnv
            { name := name
              valueFrom := some { secretKeyRef := some { name := rc.credentials.name, key := key } } }
        if rc.azure.isSome then
          addRemoteCacheEnvVar
            (addRemoteCacheEnvVar
              (addRemoteCacheEnvVar deployment "AZURE_CLIENT_ID" "azure_client_id")
              "AZURE_TENANT_ID" "azure_tenant_id")
            "AZURE_CLIENT_SECRET" "azure_client_secret"
        else if rc.s3.isSome then
          addRemoteCacheEnvVar
            (addRemoteCacheEnvVar deployment "AWS_ACCESS_KEY_ID" "aws_access_key_id")
            "AWS_SECRET_ACCESS_KEY" "aws_secret_access_key"
        else deployment
    | none => deployment
  let deployment :=
    if config.spec.ai.baseUrl ≠ "" then
      deployment.appendEnv { name := "K8SGPT_BASEURL", value := config.spec.ai.baseUrl }
    else deployment
  if config.spec.ai.engine ≠ "" ∧ config.spec.ai.backend = AzureOpenAI then
    (deployment.appendEnv { name := "K8SGPT_ENGINE", value := config.spec.ai.engine }, none)
  else if config.spec.ai.engine ≠ "" ∧ config.spec.ai.backend ≠ AzureOpenAI then
    ({}, some "Engine is supported only by azureopenai provider.")
  else
    (deployment, none)

/-! ## The effectful layer: Sync and doSync

`Sync(ctx, c, config, i)` and `doSync(ctx, clt, obj)` issue cluster API
calls through a `client.Client`.  We model the environment as an oracle
(`Client`) fixing each call's outcome, and make the functions return the
list of calls issued (the trace, in order) together with the Go error.
Contexts are modelled by `GoContext`: `Sync`'s `ctx` argument is a
`GoContext`, and Go's `context.Background()` is the constructor
`GoContext.background`. -/

/-- A Go context value: either `context.Background()` or a caller-supplied
context (tagged by an id so distinct caller contexts are distinguishable). -/
inductive GoContext where
  | background
  | caller : Nat → GoContext
deriving DecidableEq, Repr

/-- The Kubernetes API error classes the file distinguishes via
`errors.IsAlreadyExists`, `errors.IsNotFound` and (inside
`retry.RetryOnConflict`) `errors.IsConflict`; everything else is
`other`. -/
inductive ApiError where
  | alreadyExists
  | notFound
  | conflict
  | other : String → ApiError
deriving DecidableEq, Repr

/-- `errors.IsNotFound`. -/
def ApiError.isNotFound : ApiError → Bool
  | .notFound => true
  | _ => false

/-- `errors.IsAlreadyExists`. -/
def ApiError.isAlreadyExists : ApiError → Bool
  | .alreadyExists => true
  | _ => false

/-- `errors.IsConflict`. -/
def ApiError.isConflict : ApiError → Bool
  | .conflict => true
  | _ => false

/-- The error `Sync` returns: either one made with `err.New` (a message
string: a builder validation error or the fixed missing-secret message),
or a cluster API error propagated from `doSync`/`Delete`. -/
inductive SyncError where
  | msg : String → SyncError
  | api : ApiError → SyncError
deriving DecidableEq, Repr

/-- `client.Object`: one of the five desired objects. -/
inductive K8sObject where
  | service : Service → K8sObject
  | serviceAccount : ServiceAccount → K8sObject
  | clusterRole : ClusterRole → K8sObject
  | clusterRoleBinding : ClusterRoleBinding → K8sObject
  | deployment : Deployment → K8sObject
deriving DecidableEq, Repr

/-- The resource kind of an object (used to key the oracle). -/
inductive ObjKind where
  | service
  | serviceAccount
  | clusterRole
  | clusterRoleBinding
  | deployment
deriving DecidableEq, Repr

/-- Kind of a `K8sObject`. -/
def K8sObject.objKind : K8sObject → ObjKind
  | .service _ => .service
  | .serviceAccount _ => .serviceAccount
  | .clusterRole _ => .clusterRole
  | .clusterRoleBinding _ => .clusterRoleBinding
  | .deployment _ => .deployment

/-- One cluster API call, as recorded in the trace, with the context it
was issued under.  For `createOrPatch`, `obj` is the object the call
applies net of the merge function (for a patch of a Deployment/Service,
the existing object with its spec overwritten), `hasMutate` records
whether a merge function was passed, and `attempt` is the 0-based attempt
index within the conflict-retry loop. -/
inductive Call where
  | getSecret (ctx : GoContext) (name ns : String)
  | getObject (ctx : GoContext) (kind : ObjKind) (name ns : String)
  | createOrPatch (ctx : GoContext) (obj : K8sObject) (hasMutate : Bool) (attempt : Nat)
  | delete (ctx : GoContext) (obj : K8sObject)
deriving DecidableEq, Repr

/-- Is this trace entry a create-or-patch call? -/
def Call.isCreateOrPatch : Call → Bool
  | .createOrPatch _ _ _ _ => true
  | _ => false

/-- Is this trace entry the secret existence fetch? -/
def Call.isGetSecret : Call → Bool
  | .getSecret _ _ _ => true
  | _ => false

/-- The context a trace entry was issued under. -/
def Call.ctx : Call → GoContext
  | .getSecret c _ _ => c
  | .getObject c _ _ _ => c
  | .createOrPatch c _ _ _ => c
  | .delete c _ => c

/-- The environment oracle standing in for `client.Client`: the outcome of
each cluster API call the file can make.  `createOrPatch` outcomes are
indexed by object kind and by the attempt number within the retry loop,
so a conflict can resolve (or not) across retries. -/
structure Client where
  secretGet : Option ApiError
  deploymentGet : Except ApiError Deployment
  serviceGet : Except ApiError Service
  createOrPatch : ObjKind → Nat → Option ApiError
  delete : ObjKind → Option ApiError

/-- Modelled from the spec: `retry.RetryOnConflict(retry.DefaultRetry, fn)`
from the client library — "a bounded retry loop that retries only on
optimistic-concurrency conflict errors ... using a default backoff
policy; other errors propagate without retry".  The default policy allows
`defaultRetrySteps` attempts; when every attempt conflicts the last
conflict error is returned.  `fn` returns the calls it issued and its
error; timing/backoff durations are irrelevant to the embedding. -/
def retryOnConflictGo (fn : Nat → List Call × Option ApiError) :
    Nat → Nat → Option ApiError → List Call × Option ApiError
  | 0, _, lastErr => ([], lastErr)
  | steps + 1, attempt, _ =>
      let (calls, r) := fn attempt
      match r with
      | none => (calls, none)
      | some e =>
          if e.isConflict then
            let (calls2, r2) := retryOnConflictGo fn steps (attempt + 1) (some e)
            (calls ++ calls2, r2)
          else (calls, some e)

/-- Modelled from the spec: the attempt budget of the client library's
default retry policy (`retry.DefaultRetry.Steps`). -/
def defaultRetrySteps : Nat := 5

/-- `doSync(ctx, clt, obj)`.  The type switch gives only Deployment and
Service a merge function: for those kinds the existing object is fetched
(with `context.Background()`, as in the source) and, when found, the
object to apply becomes the existing object with only its spec overwritten
by the desired spec; a non-not-found fetch error propagates immediately.
The create-or-patch call is wrapped in the conflict-retry loop and issued
under the caller's `ctx`. -/
def doSync (ctx : GoContext) (clt : Client) (obj : K8sObject) : List Call × Option ApiError :=
  match obj with
  | .deployment expect =>
      let getCall := Call.getObject .background .deployment expect.metadata.name expect.metadata.ns
      match clt.deploymentGet with
      | .error e =>
          if e.isNotFound then
            let (calls, r) := retryOnConflictGo
              (fun n => ([Call.createOrPatch ctx (.deployment expect) false n],
                          clt.createOrPatch .deployment n))
              defaultRetrySteps 0 none
            (getCall :: calls, r)
          else ([getCall], some e)
      | .ok exist =>
          let merged : Deployment := { exist with spec := expect.spec }
          let (calls, r) := retryOnConflictGo
            (fun n => ([Call.createOrPatch ctx (.deployment merged) true n],
                        clt.createOrPatch .deployment n))
            defaultRetrySteps 0 none
          (getCall :: calls, r)
  | .service expect =>
      let getCall := Call.getObject .background .service expect.metadata.name expect.metadata.ns
      match clt.serviceGet with
      | .error e =>
          if e.isNotFound then
            let (calls, r) := retryOnConflictGo
              (fun n => ([Call.createOrPatch ctx (.service expect) false n],
                          clt.createOrPatch .service n))
              defaultRetrySteps 0 none
            (getCall :: calls, r)
          else ([getCall], some e)
      | .ok exist =>
          let merged : Service := { exist with spec := expect.spec }
          let (calls, r) := retryOnConflictGo
            (fun n => ([Call.createOrPatch ctx (.service merged) true n],
                        clt.createOrPatch .service n))
            defaultRetrySteps 0 none
          (getCall :: calls, r)
  | _ =>
      retryOnConflictGo
        (fun n => ([Call.createOrPatch ctx obj false n],
                    clt.createOrPatch obj.objKind n))
        defaultRetrySteps 0 none

/-- `SyncOrDestroy` enum. -/
inductive SyncOrDestroy where
  | SyncOp
  | DestroyOp
deriving DecidableEq, Repr

/-- The body of `Sync`'s per-object loop: the mode switch, including (in
synchronize mode) the secret pre-check, the `doSync` call with its
already-exists swallowing, and (in destroy mode) the delete with its
not-found swallowing.  Returns the calls issued for this object and the
error, `none` meaning the loop continues. -/
def syncStep (ctx : GoContext) (c : Client) (config : K8sGPT) (i : SyncOrDestroy)
    (obj : K8sObject) : List Call × Option SyncError :=
  match i with
  | .SyncOp =>
      match config.spec.ai.secret with
      | some secret =>
          let call := Call.getSecret ctx secret.name config.ns
          match c.secretGet with
          | some _ =>
              ([call], some (.msg "references secret does not exist, cannot create deployment"))
          | none =>
              let (calls, r) := doSync ctx c obj
              match r with
              | some e =>
                  if e.isAlreadyExists then (call :: calls, none)
                  else (call :: calls, some (.api e))
              | none => (call :: calls, none)
      | none =>
          let (calls, r) := doSync ctx c obj
          match r with
          | some e =>
              if e.isAlreadyExists then (calls, none)
              else (calls, some (.api e))
          | none => (calls, none)
  | .DestroyOp =>
      let call := Call.delete ctx obj
      match c.delete obj.objKind with
      | some e =>
          if e.isNotFound then ([call], none)
          else ([call], some (.api e))
      | none => ([call], none)

/-- `Sync`'s `for _, obj := range objs` loop: run `syncStep` on each object
in order, returning on the first fatal error (objects already processed
keep their effects — the calls already issued stay in the trace). -/
def syncLoop (ctx : GoContext) (c : Client) (config : K8sGPT) (i : SyncOrDestroy) :
    List K8sObject → List Call × Option SyncError
  | [] => ([], none)
  | obj :: rest =>
      let (calls, r) := syncStep ctx c config i obj
      match r with
      | some e => (calls, some e)
      | none =>
          let (calls2, r2) := syncLoop ctx c config i rest
          (calls ++ calls2, r2)

/-- `Sync(ctx, c, config, i)`: build the five desired objects in order
(Service, ServiceAccount, ClusterRole, ClusterRoleBinding, Deployment),
abort on the first builder error, then run the per-object loop. -/
def Sync (ctx : GoContext) (c : Client) (config : K8sGPT) (i : SyncOrDestroy) :
    List Call × Option SyncError :=
  match GetService config with
  | (_, some er) => ([], some (.msg er))
  | (svc, none) =>
      match GetServiceAccount config with
      | (_, some er) => ([], some (.msg er))
      | (svcAcc, none) =>
          match GetClusterRole config with
          | (_, some er) => ([], some (.msg er))
          | (clusterRole, none) =>
              match GetClusterRoleBinding config with
              | (_, some er) => ([], some (.msg er))
              | (clusterRoleBinding, none) =>
                  match GetDeployment config with
                  | (_, some er) => ([], some (.msg er))
                  | (deployment, none) =>
                      syncLoop ctx c config i
                        [.service svc, .serviceAccount svcAcc, .clusterRole clusterRole,
                         .clusterRoleBinding clusterRoleBinding, .deployment deployment]

/-! ## Characterising the Deployment's container environment

Helper definitions (used only in proofs) naming the five segments the
builder appends, and lemmas showing the built container environment is
exactly their concatenation. -/

/-- The environment of the Deployment's first (and only) container. -/
def Deployment.firstEnv (d : Deployment) : List EnvVar :=
  match d.spec.template.spec.containers with
  | [] => []
  | c :: _ => c.env

/-- The four unconditional environment variables. -/
def baseEnv (config : K8sGPT) : List EnvVar :=
  [{ name := "K8SGPT_MODEL", value := config.spec.ai.model },
   { name := "K8SGPT_BACKEND", value := config.spec.ai.backend },
   { name := "XDG_CONFIG_HOME", value := "/k8sgpt-data/.config" },
   { name := "XDG_CACHE_HOME", value := "/k8sgpt-data/.cache" }]

/-- The password segment (present iff an AI secret reference is set). -/
def passwordEnv (config : K8sGPT) : List EnvVar :=
  match config.spec.ai.secret with
  | some secret =>
      [{ name := "K8SGPT_PASSWORD"
         valueFrom := some { secretKeyRef := some { name := secret.name, key := secret.key } } }]
  | none => []

/-- A remote-cache credential variable sourced from the credential secret. -/
def cacheVar (credName name key : String) : EnvVar :=
  { name := name
    valueFrom := some { secretKeyRef := some { name := credName, key := key } } }

/-- The remote-cache credential segment: the Azure triple when the Azure
sub-field is set, else the AWS pair when the S3 sub-field is set, else
nothing. -/
def cacheEnv (config : K8sGPT) : List EnvVar :=
  match config.spec.remoteCache with
  | some rc =>
      if rc.azure.isSome then
        [cacheVar rc.credentials.name "AZURE_CLIENT_ID" "azure_client_id",
         cacheVar rc.credentials.name "AZURE_TENANT_ID" "azure_tenant_id",
         cacheVar rc.credentials.name "AZURE_CLIENT_SECRET" "azure_client_secret"]
      else if rc.s3.isSome then
        [cacheVar rc.credentials.name "AWS_ACCESS_KEY_ID" "aws_access_key_id",
         cacheVar rc.credentials.name "AWS_SECRET_ACCESS_KEY" "aws_secret_access_key"]
      else []
  | none => []

/-- The base-URL segment. -/
def baseUrlEnv (config : K8sGPT) : List EnvVar :=
  if config.spec.ai.baseUrl ≠ "" then
    [{ name := "K8SGPT_BASEURL", value := config.spec.ai.baseUrl }]
  else []

/-- The engine segment (present only on the success path with a non-empty
engine). -/
def engineEnv (config : K8sGPT) : List EnvVar :=
  if config.spec.ai.engine ≠ "" ∧ config.spec.ai.backend = AzureOpenAI then
    [{ name := "K8SGPT_ENGINE", value := config.spec.ai.engine }]
  else []

/-- `appendEnv` appends to the first container's environment. -/
theorem appendEnv_firstEnv (d : Deployment) (v : EnvVar)
    (h : d.spec.template.spec.containers ≠ []) :
    (d.appendEnv v).firstEnv = d.firstEnv ++ [v] := by
  unfold Deployment.appendEnv Deployment.firstEnv
  cases hc : d.spec.template.spec.containers with
  | nil => exact absurd hc h
  | cons c cs => simp

/-- `appendEnv` keeps the containers list non-empty. -/
theorem appendEnv_containers_ne (d : Deployment) (v : EnvVar)
    (h : d.spec.template.spec.containers ≠ []) :
    (d.appendEnv v).spec.template.spec.containers ≠ [] := by
  unfold Deployment.appendEnv
  cases hc : d.spec.template.spec.containers with
  | nil => exact absurd hc h
  | cons c cs => simp

/-- `appendEnv` does not touch the metadata. -/
theorem appendEnv_metadata (d : Deployment) (v : EnvVar) :
    (d.appendEnv v).metadata = d.metadata := by
  unfold Deployment.appendEnv
  cases d.spec.template.spec.containers with
  | nil => rfl
  | cons c cs => rfl

/-- `GetDeployment` fails exactly when a non-empty engine is configured
for a backend other than AzureOpenAI, and then returns the fixed
validation message with the empty object. -/
theorem getDeployment_error_iff (config : K8sGPT) :
    (GetDeployment config).2.isSome ↔
      (config.spec.ai.engine ≠ "" ∧ config.spec.ai.backend ≠ AzureOpenAI) := by
  unfold GetDeployment
  by_cases he : config.spec.ai.engine = "" <;>
    by_cases hb : config.spec.ai.backend = AzureOpenAI <;>
      simp [he, hb]

/-- On the success path, the built container environment is exactly the
concatenation of the five segments, in source order. -/
theorem getDeployment_env (config : K8sGPT)
    (h : ¬(config.spec.ai.engine ≠ "" ∧ config.spec.ai.backend ≠ AzureOpenAI)) :
    (GetDeployment config).1.firstEnv =
      baseEnv config ++ passwordEnv config ++ cacheEnv config ++
        baseUrlEnv config ++ engineEnv config := by
  unfold GetDeployment baseEnv passwordEnv cacheEnv baseUrlEnv engineEnv cacheVar
  rcases hsec : config.spec.ai.secret with _ | s <;>
  rcases hrc : config.spec.remoteCache with _ | rc <;>
  by_cases hurl : config.spec.ai.baseUrl = "" <;>
  by_cases he : config.spec.ai.engine = "" <;>
  by_cases hb : config.spec.ai.backend = AzureOpenAI <;>
  first
  | (simp only [hsec, hrc, hurl, he, hb] at h ⊢;
     try simp_all) <;>
    rcases haz : rc.azure with _ | az <;>
    rcases hs3 : rc.s3 with _ | s3 <;>
    simp [haz, hs3, Deployment.appendEnv, Deployment.firstEnv, hurl, he, hb]
  | simp_all [Deployment.appendEnv, Deployment.firstEnv]

/-- The three Azure remote-cache credential variable names. -/
def azureNames : List String := ["AZURE_CLIENT_ID", "AZURE_TENANT_ID", "AZURE_CLIENT_SECRET"]

/-- The two AWS remote-cache credential variable names. -/
def awsNames : List String := ["AWS_ACCESS_KEY_ID", "AWS_SECRET_ACCESS_KEY"]

theorem baseEnv_filter_azure (config : K8sGPT) :
    (baseEnv config).filter (fun v => azureNames.contains v.name) = [] := rfl

theorem baseEnv_filter_aws (config : K8sGPT) :
    (baseEnv config).filter (fun v => awsNames.contains v.name) = [] := rfl

theorem passwordEnv_filter_azure (config : K8sGPT) :
    (passwordEnv config).filter (fun v => azureNames.contains v.name) = [] := by
  unfold passwordEnv
  cases config.spec.ai.secret <;> rfl

theorem passwordEnv_filter_aws (config : K8sGPT) :
    (passwordEnv config).filter (fun v => awsNames.contains v.name) = [] := by
  unfold passwordEnv
  cases config.spec.ai.secret <;> rfl

theorem baseUrlEnv_filter_azure (config : K8sGPT) :
    (baseUrlEnv config).filter (fun v => azureNames.contains v.name) = [] := by
  unfold baseUrlEnv
  split <;> rfl

theorem baseUrlEnv_filter_aws (config : K8sGPT) :
    (baseUrlEnv config).filter (fun v => awsNames.contains v.name) = [] := by
  unfold baseUrlEnv
  split <;> rfl

theorem engineEnv_filter_azure (config : K8sGPT) :
    (engineEnv config).filter (fun v => azureNames.contains v.name) = [] := by
  unfold engineEnv
  split <;> rfl

theorem engineEnv_filter_aws (config : K8sGPT) :
    (engineEnv config).filter (fun v => awsNames.contains v.name) = [] := by
  unfold engineEnv
  split <;> rfl

/-- The owner reference every builder stamps from the configuration's
identity, with both flags set. -/
def configOwnerRef (config : K8sGPT) : OwnerReference :=
  { kind := config.kind
    name := config.name
    uid := config.uid
    apiVersion := config.apiVersion
    controller := true
    blockOwnerDeletion := true }

/-- On the success path the Deployment's metadata is the fixed name, the
configuration's namespace, and the stamped owner reference. -/
theorem getDeployment_metadata (config : K8sGPT)
    (h : ¬(config.spec.ai.engine ≠ "" ∧ config.spec.ai.backend ≠ AzureOpenAI)) :
    (GetDeployment config).1.metadata =
      { name := DeploymentName, ns := config.ns,
        ownerReferences := [configOwnerRef config] } := by
  unfold GetDeployment configOwnerRef
  rcases hsec : config.spec.ai.secret with _ | s <;>
  rcases hrc : config.spec.remoteCache with _ | rc <;>
  by_cases hurl : config.spec.ai.baseUrl = "" <;>
  by_cases he : config.spec.ai.engine = "" <;>
  by_cases hb : config.spec.ai.backend = AzureOpenAI <;>
  first
  | (simp only [hsec, hrc, hurl, he, hb] at h ⊢;
     try simp_all) <;>
    rcases haz : rc.azure with _ | az <;>
    rcases hs3 : rc.s3 with _ | s3 <;>
    simp [haz, hs3, Deployment.appendEnv, hurl, he, hb]
  | simp_all [Deployment.appendEnv]

/-! ## Concrete inputs used by witnesses and counterexamples -/

/-- A configuration with a non-empty engine and the AzureOpenAI backend. -/
def cfgAzure : K8sGPT :=
  { kind := "K8sGPT", name := "sample", uid := "uid-1",
    apiVersion := "core.k8sgpt.ai/v1alpha1", ns := "default",
    spec :=
      { repository := "ghcr.io/k8sgpt-ai/k8sgpt", version := "v0.2.7",
        ai := { backend := AzureOpenAI, model := "gpt35", engine := "gpt35-turbo" } } }

/-- A configuration with a non-empty engine and a non-AzureOpenAI backend. -/
def cfgEngineBad : K8sGPT :=
  { kind := "K8sGPT", name := "sample", uid := "uid-1",
    apiVersion := "core.k8sgpt.ai/v1alpha1", ns := "default",
    spec :=
      { repository := "ghcr.io/k8sgpt-ai/k8sgpt", version := "v0.2.7",
        ai := { backend := "openai", model := "gpt35", engine := "gpt35-turbo" } } }

/-- A configuration whose remote-cache block has BOTH the Azure and the S3
sub-fields set (engine empty, so the builder succeeds). -/
def cfgBothCaches : K8sGPT :=
  { kind := "K8sGPT", name := "sample", uid := "uid-1",
    apiVersion := "core.k8sgpt.ai/v1alpha1", ns := "default",
    spec :=
      { repository := "ghcr.io/k8sgpt-ai/k8sgpt", version := "v0.2.7",
        ai := { backend := "openai", model := "gpt35" },
        remoteCache := some
          { credentials := { name := "cache-cred" },
            azure := some Unit.unit, s3 := some Unit.unit } } }

/-- A configuration whose remote-cache block has only the Azure sub-field
set. -/
def cfgAzureCache : K8sGPT :=
  { kind := "K8sGPT", name := "sample", uid := "uid-1",
    apiVersion := "core.k8sgpt.ai/v1alpha1", ns := "default",
    spec :=
      { repository := "ghcr.io/k8sgpt-ai/k8sgpt", version := "v0.2.7",
        ai := { backend := "openai", model := "gpt35" },
        remoteCache := some
          { credentials := { name := "cache-cred" },
            azure := some Unit.unit, s3 := none } } }

/-! ## The claims -/

/-- C1: for every configuration with a non-empty engine: with the
AzureOpenAI backend, `GetDeployment` succeeds and the container
environment includes `K8SGPT_ENGINE` with the configured engine value;
with any other backend it returns a non-nil validation error together
with an empty Deployment object. -/
theorem C1_engine_only_azureopenai (config : K8sGPT)
    (h : config.spec.ai.engine ≠ "") :
    (config.spec.ai.backend = AzureOpenAI →
       (GetDeployment config).2 = none ∧
       ({ name := "K8SGPT_ENGINE", value := config.spec.ai.engine : EnvVar} ∈
         (GetDeployment config).1.firstEnv)) ∧
    (config.spec.ai.backend ≠ AzureOpenAI →
       (GetDeployment config).2.isSome = true ∧
       (GetDeployment config).1 = ({} : Deployment)) := by
  constructor
  · intro hb
    have hne : ¬(config.spec.ai.engine ≠ "" ∧ config.spec.ai.backend ≠ AzureOpenAI) := by
      simp [hb]
    constructor
    · have := getDeployment_error_iff config
      simp [hne] at this
      exact Option.not_isSome_iff_eq_none.mp (by simp [this])
    · rw [getDeployment_env config hne]
      have heng : engineEnv config =
          [{ name := "K8SGPT_ENGINE", value := config.spec.ai.engine }] := by
        simp [engineEnv, h, hb]
      simp [heng]
  · intro hb
    constructor
    · exact (getDeployment_error_iff config).mpr ⟨h, hb⟩
    · unfold GetDeployment
      simp [h, hb]

/-- C1 witness: the theorem applied at `cfgAzure`. -/
theorem C1_witness :
    cfgAzure.spec.ai.engine ≠ "" ∧
    (GetDeployment cfgAzure).2 = none ∧
    ({ name := "K8SGPT_ENGINE", value := cfgAzure.spec.ai.engine : EnvVar} ∈
      (GetDeployment cfgAzure).1.firstEnv) :=
  ⟨by decide,
   ((C1_engine_only_azureopenai cfgAzure (by decide)).1 rfl).1,
   ((C1_engine_only_azureopenai cfgAzure (by decide)).1 rfl).2⟩

/-- C2 counterexample: on the engine-validation failure path
`GetDeployment` returns the empty object, whose owner-reference list is
empty rather than the configuration's single stamped reference, so the
claim's universal quantification over all configurations fails. -/
theorem C2_counterexample :
    ¬ ((GetDeployment cfgEngineBad).1.metadata.ownerReferences =
        [configOwnerRef cfgEngineBad]) := by decide

/-- C2 (amended): for every configuration the Service, ServiceAccount,
ClusterRole and ClusterRoleBinding builders stamp exactly the single
owner reference carrying the configuration's kind/name/UID/API-version
with both flags true, and so does `GetDeployment` whenever it returns a
nil error. -/
theorem C2_owner_references (config : K8sGPT) :
    (GetService config).1.metadata.ownerReferences = [configOwnerRef config] ∧
    (GetServiceAccount config).1.metadata.ownerReferences = [configOwnerRef config] ∧
    (GetClusterRole config).1.metadata.ownerReferences = [configOwnerRef config] ∧
    (GetClusterRoleBinding config).1.metadata.ownerReferences = [configOwnerRef config] ∧
    ((GetDeployment config).2 = none →
      (GetDeployment config).1.metadata.ownerReferences = [configOwnerRef config]) := by
  refine ⟨rfl, rfl, rfl, rfl, fun hok => ?_⟩
  have hne : ¬(config.spec.ai.engine ≠ "" ∧ config.spec.ai.backend ≠ AzureOpenAI) := by
    rw [← getDeployment_error_iff]
    simp [hok]
  rw [getDeployment_metadata config hne]

/-- C2 witness: the theorem applied at `cfgAzure`, with the Deployment
implication discharged. -/
theorem C2_witness :
    (GetDeployment cfgAzure).2 = none ∧
    (GetDeployment cfgAzure).1.metadata.ownerReferences = [configOwnerRef cfgAzure] :=
  ⟨by decide, (C2_owner_references cfgAzure).2.2.2.2 (by decide)⟩

/-- C3 counterexample: with BOTH remote-cache sub-fields set the S3
sub-field is non-null, yet the built environment contains none of the
AWS-named keys (the Azure branch wins), refuting the claim's S3 clause. -/
theorem C3_counterexample :
    (cfgBothCaches.spec.remoteCache.bind RemoteCache.s3).isSome = true ∧
    (GetDeployment cfgBothCaches).2 = none ∧
    (GetDeployment cfgBothCaches).1.firstEnv.filter
      (fun v => awsNames.contains v.name) = [] := by decide

/-- C3 (amended): when the builder succeeds, a set Azure sub-field yields
exactly the three Azure-named credential variables (sourced from the
referenced credential secret) and none of the AWS-named ones; a set S3
sub-field with the Azure sub-field null yields exactly the two AWS-named
ones and none of the Azure-named ones; with neither set no credential
variable is added. -/
theorem C3_remote_cache_credentials (config : K8sGPT) (rc : RemoteCache)
    (hrc : config.spec.remoteCache = some rc)
    (hok : (GetDeployment config).2 = none) :
    (rc.azure.isSome = true →
       (GetDeployment config).1.firstEnv.filter (fun v => azureNames.contains v.name) =
         [cacheVar rc.credentials.name "AZURE_CLIENT_ID" "azure_client_id",
          cacheVar rc.credentials.name "AZURE_TENANT_ID" "azure_tenant_id",
          cacheVar rc.credentials.name "AZURE_CLIENT_SECRET" "azure_client_secret"] ∧
       (GetDeployment config).1.firstEnv.filter (fun v => awsNames.contains v.name) = []) ∧
    (rc.azure = none → rc.s3.isSome = true →
       (GetDeployment config).1.firstEnv.filter (fun v => awsNames.contains v.name) =
         [cacheVar rc.credentials.name "AWS_ACCESS_KEY_ID" "aws_access_key_id",
          cacheVar rc.credentials.name "AWS_SECRET_ACCESS_KEY" "aws_secret_access_key"] ∧
       (GetDeployment config).1.firstEnv.filter (fun v => azureNames.contains v.name) = []) ∧
    (rc.azure = none → rc.s3 = none →
       (GetDeployment config).1.firstEnv.filter (fun v => azureNames.contains v.name) = [] ∧
       (GetDeployment config).1.firstEnv.filter (fun v => awsNames.contains v.name) = []) := by
  have hne : ¬(config.spec.ai.engine ≠ "" ∧ config.spec.ai.backend ≠ AzureOpenAI) := by
    rw [← getDeployment_error_iff]
    simp [hok]
  have henv := getDeployment_env config hne
  refine ⟨fun haz => ?_, fun haz hs3 => ?_, fun haz hs3 => ?_⟩ <;>
    rw [henv] <;>
    simp only [List.filter_append, baseEnv_filter_azure, baseEnv_filter_aws,
      passwordEnv_filter_azure, passwordEnv_filter_aws, baseUrlEnv_filter_azure,
      baseUrlEnv_filter_aws, engineEnv_filter_azure, engineEnv_filter_aws,
      List.nil_append, List.append_nil] <;>
    simp only [cacheEnv, hrc]
  · simp [haz, cacheVar, azureNames, awsNames]
  · simp [haz, hs3, cacheVar, azureNames, awsNames]
  · simp [haz, hs3, cacheVar, azureNames, awsNames]

/-- C3 witness: the amended theorem applied at a configuration with only
the Azure sub-field set. -/
theorem C3_witness :
    (GetDeployment cfgAzureCache).1.firstEnv.filter
        (fun v => azureNames.contains v.name) =
      [cacheVar "cache-cred" "AZURE_CLIENT_ID" "azure_client_id",
       cacheVar "cache-cred" "AZURE_TENANT_ID" "azure_tenant_id",
       cacheVar "cache-cred" "AZURE_CLIENT_SECRET" "azure_client_secret"] ∧
    (GetDeployment cfgAzureCache).1.firstEnv.filter
        (fun v => awsNames.contains v.name) = [] :=
  (C3_remote_cache_credentials cfgAzureCache
      { credentials := { name := "cache-cred" }, azure := some Unit.unit, s3 := none }
      (by decide) (by decide)).1 (by decide)

/-- A configuration referencing an AI secret (engine empty, so every
builder succeeds). -/
def cfgSecret : K8sGPT :=
  { kind := "K8sGPT", name := "sample", uid := "uid-1",
    apiVersion := "core.k8sgpt.ai/v1alpha1", ns := "default",
    spec :=
      { repository := "ghcr.io/k8sgpt-ai/k8sgpt", version := "v0.2.7",
        ai := { backend := "openai", model := "gpt35",
                secret := some { name := "ai-secret", key := "api-key" } } } }

/-- An oracle on which every cluster call succeeds (object fetches report
not-found, so reconciliation takes the create path). -/
def clientAllOk : Client :=
  { secretGet := none
    deploymentGet := .error .notFound
    serviceGet := .error .notFound
    createOrPatch := fun _ _ => none
    delete := fun _ => none }

/-- An oracle whose secret fetch fails with a non-not-found error. -/
def clientSecretMissing : Client :=
  { clientAllOk with secretGet := some (.other "forbidden") }

/-- C4: in synchronize mode, a failing AI-secret fetch makes `Sync` return
a non-nil error with no create-or-patch call in the trace. -/
theorem C4_secret_fetch_failure (ctx : GoContext) (c : Client) (config : K8sGPT)
    (s : SecretRef) (hs : config.spec.ai.secret = some s)
    (hf : c.secretGet.isSome = true) :
    (Sync ctx c config .SyncOp).2.isSome = true ∧
    (Sync ctx c config .SyncOp).1.all (fun call => !call.isCreateOrPatch) = true := by
  obtain ⟨e, he⟩ := Option.isSome_iff_exists.mp hf
  rcases hgd : GetDeployment config with ⟨d, _ | er⟩
  · simp [Sync, GetService, GetServiceAccount, GetClusterRole, GetClusterRoleBinding, hgd,
      syncLoop, syncStep, hs, he, Call.isCreateOrPatch]
  · simp [Sync, GetService, GetServiceAccount, GetClusterRole, GetClusterRoleBinding, hgd]

/-- C4 witness: the theorem applied at a concrete configuration and a
client whose secret fetch fails. -/
theorem C4_witness :
    cfgSecret.spec.ai.secret = some { name := "ai-secret", key := "api-key" } ∧
    clientSecretMissing.secretGet.isSome = true ∧
    (Sync (.caller 0) clientSecretMissing cfgSecret .SyncOp).2.isSome = true ∧
    (Sync (.caller 0) clientSecretMissing cfgSecret .SyncOp).1.all
      (fun call => !call.isCreateOrPatch) = true :=
  ⟨rfl, rfl,
   (C4_secret_fetch_failure (.caller 0) clientSecretMissing cfgSecret
      { name := "ai-secret", key := "api-key" } rfl rfl).1,
   (C4_secret_fetch_failure (.caller 0) clientSecretMissing cfgSecret
      { name := "ai-secret", key := "api-key" } rfl rfl).2⟩

/-- C9: the Service, ServiceAccount, ClusterRole and ClusterRoleBinding
builders always return a nil error, so the only builder error `Sync` can
abort on is `GetDeployment`'s, on the fifth build step (before any
cluster call). -/
theorem C9_only_deployment_fallible (ctx : GoContext) (c : Client) (config : K8sGPT)
    (i : SyncOrDestroy) :
    (GetService config).2 = none ∧
    (GetServiceAccount config).2 = none ∧
    (GetClusterRole config).2 = none ∧
    (GetClusterRoleBinding config).2 = none ∧
    (∀ er, (GetDeployment config).2 = some er →
       Sync ctx c config i = ([], some (.msg er))) := by
  refine ⟨rfl, rfl, rfl, rfl, fun er her => ?_⟩
  rcases hgd : GetDeployment config with ⟨d, od⟩
  rw [hgd] at her
  simp only at her
  subst her
  simp [Sync, GetService, GetServiceAccount, GetClusterRole, GetClusterRoleBinding, hgd]

/-- C9 witness: the abort on the fifth build step at a configuration whose
Deployment build fails. -/
theorem C9_witness :
    (GetDeployment cfgEngineBad).2 = some "Engine is supported only by azureopenai provider." ∧
    Sync (.caller 0) clientAllOk cfgEngineBad .SyncOp =
      ([], some (.msg "Engine is supported only by azureopenai provider.")) :=
  ⟨by decide,
   (C9_only_deployment_fallible (.caller 0) clientAllOk cfgEngineBad .SyncOp).2.2.2.2
     "Engine is supported only by azureopenai provider." (by decide)⟩

/-- C10: with an AI secret configured, synchronize mode fetches the secret
once per object (five times on a clean pass), and any fetch error — of
any class — is replaced by the fixed message, the underlying error being
discarded. -/
theorem C10_secret_check_each_object (ctx : GoContext) (c : Client) (config : K8sGPT)
    (s : SecretRef) (hs : config.spec.ai.secret = some s) :
    ((∀ k n, c.createOrPatch k n = none) →
       c.deploymentGet = .error .notFound →
       c.serviceGet = .error .notFound →
       c.secretGet = none →
       (GetDeployment config).2 = none →
       (Sync ctx c config .SyncOp).1.countP (fun call => call.isGetSecret) = 5) ∧
    (∀ e, c.secretGet = some e →
       (GetDeployment config).2 = none →
       (Sync ctx c config .SyncOp).2 =
         some (.msg "references secret does not exist, cannot create deployment")) := by
  constructor
  · intro hcp hdg hsg hsec hok
    rcases hgd : GetDeployment config with ⟨d, od⟩
    rw [hgd] at hok
    simp only at hok
    subst hok
    simp [Sync, GetService, GetServiceAccount, GetClusterRole, GetClusterRoleBinding, hgd,
      syncLoop, syncStep, doSync, retryOnConflictGo, defaultRetrySteps, hs, hsec, hdg, hsg,
      hcp, Call.isGetSecret, List.countP_cons, List.countP_append,
      ApiError.isNotFound, ApiError.isAlreadyExists, ApiError.isConflict, K8sObject.objKind]
  · intro e he hok
    rcases hgd : GetDeployment config with ⟨d, od⟩
    rw [hgd] at hok
    simp only at hok
    subst hok
    simp [Sync, GetService, GetServiceAccount, GetClusterRole, GetClusterRoleBinding, hgd,
      syncLoop, syncStep, hs, he]

/-- C10 witness: five secret fetches on a clean pass; the fixed message on
a fetch that fails with a permission-style error. -/
theorem C10_witness :
    (Sync (.caller 0) clientAllOk cfgSecret .SyncOp).1.countP
        (fun call => call.isGetSecret) = 5 ∧
    (Sync (.caller 0) clientSecretMissing cfgSecret .SyncOp).2 =
      some (.msg "references secret does not exist, cannot create deployment") :=
  ⟨(C10_secret_check_each_object (.caller 0) clientAllOk cfgSecret
      { name := "ai-secret", key := "api-key" } rfl).1
      (fun _ _ => rfl) rfl rfl rfl (by decide),
   (C10_secret_check_each_object (.caller 0) clientSecretMissing cfgSecret
      { name := "ai-secret", key := "api-key" } rfl).2
      (.other "forbidden") rfl (by decide)⟩

/-- A configuration with no AI secret and no engine: every builder
succeeds and synchronize mode performs no secret pre-check. -/
def cfgPlain : K8sGPT :=
  { kind := "K8sGPT", name := "sample", uid := "uid-1",
    apiVersion := "core.k8sgpt.ai/v1alpha1", ns := "default",
    spec :=
      { repository := "ghcr.io/k8sgpt-ai/k8sgpt", version := "v0.2.7",
        ai := { backend := "openai", model := "gpt35" } } }

/-- An oracle on which every create-or-patch reports already-exists. -/
def clientAlreadyExists : Client :=
  { clientAllOk with createOrPatch := fun _ _ => some .alreadyExists }

/-- An oracle on which every delete reports not-found. -/
def clientDeleteNotFound : Client :=
  { clientAllOk with delete := fun _ => some .notFound }

/-- An oracle whose delete of the ClusterRole (the third object) fails
with a non-not-found error while the earlier deletes succeed. -/
def clientDeleteBoom : Client :=
  { clientAllOk with delete := fun k =>
      match k with
      | .clusterRole => some (.other "boom")
      | _ => none }

/-- An oracle whose create-or-patch fails with a non-conflict,
non-already-exists error. -/
def clientPatchBoom : Client :=
  { clientAllOk with createOrPatch := fun _ _ => some (.other "boom") }

/-- C5: already-exists from `doSync` in synchronize mode and not-found
from `Delete` in destroy mode are swallowed (the pass finishes with no
error); any other error from either is returned at once, the calls
already issued for earlier objects staying in the trace (no rollback). -/
theorem C5_idempotency_and_abort (ctx : GoContext) (c : Client) (config : K8sGPT) :
    (config.spec.ai.secret = none →
       (GetDeployment config).2 = none →
       c.deploymentGet = .error .notFound →
       c.serviceGet = .error .notFound →
       (∀ k n, c.createOrPatch k n = some .alreadyExists) →
       (Sync ctx c config .SyncOp).2 = none) ∧
    ((GetDeployment config).2 = none →
       (∀ k, c.delete k = some .notFound) →
       (Sync ctx c config .DestroyOp).2 = none) ∧
    (∀ e, e.isNotFound = false →
       (GetDeployment config).2 = none →
       c.delete .service = none →
       c.delete .serviceAccount = none →
       c.delete .clusterRole = some e →
       Sync ctx c config .DestroyOp =
         ([Call.delete ctx (.service (GetService config).1),
           Call.delete ctx (.serviceAccount (GetServiceAccount config).1),
           Call.delete ctx (.clusterRole (GetClusterRole config).1)], some (.api e))) ∧
    (∀ e, e.isAlreadyExists = false → e.isConflict = false →
       config.spec.ai.secret = none →
       (GetDeployment config).2 = none →
       c.serviceGet = .error .notFound →
       c.createOrPatch .service 0 = some e →
       Sync ctx c config .SyncOp =
         ([Call.getObject .background .service "k8sgpt" config.ns,
           Call.createOrPatch ctx (.service (GetService config).1) false 0],
          some (.api e))) := by
  refine ⟨fun hsec hok hdg hsg hcp => ?_, fun hok hdel => ?_,
          fun e he hok h1 h2 h3 => ?_, fun e he1 he2 hsec hok hsg hcp => ?_⟩ <;>
    rcases hgd : GetDeployment config with ⟨d, od⟩ <;>
    rw [hgd] at hok <;> simp only at hok <;> subst hok
  · simp [Sync, GetService, GetServiceAccount, GetClusterRole, GetClusterRoleBinding, hgd,
      syncLoop, syncStep, doSync, retryOnConflictGo, defaultRetrySteps, hsec, hdg, hsg, hcp,
      ApiError.isNotFound, ApiError.isAlreadyExists, ApiError.isConflict, K8sObject.objKind]
  · simp [Sync, GetService, GetServiceAccount, GetClusterRole, GetClusterRoleBinding, hgd,
      syncLoop, syncStep, hdel, ApiError.isNotFound, K8sObject.objKind]
  · simp [Sync, GetService, GetServiceAccount, GetClusterRole, GetClusterRoleBinding, hgd,
      syncLoop, syncStep, h1, h2, h3, he, K8sObject.objKind]
  · simp [Sync, GetService, GetServiceAccount, GetClusterRole, GetClusterRoleBinding, hgd,
      syncLoop, syncStep, doSync, retryOnConflictGo, defaultRetrySteps, hsec, hsg, hcp,
      he1, he2, ApiError.isNotFound, K8sObject.objKind]

/-- C5 witness: the four parts applied at `cfgPlain` with four concrete
oracles (all-already-exists, all-not-found, a failing third delete, a
failing first patch). -/
theorem C5_witness :
    (Sync (.caller 0) clientAlreadyExists cfgPlain .SyncOp).2 = none ∧
    (Sync (.caller 0) clientDeleteNotFound cfgPlain .DestroyOp).2 = none ∧
    Sync (.caller 0) clientDeleteBoom cfgPlain .DestroyOp =
      ([Call.delete (.caller 0) (.service (GetService cfgPlain).1),
        Call.delete (.caller 0) (.serviceAccount (GetServiceAccount cfgPlain).1),
        Call.delete (.caller 0) (.clusterRole (GetClusterRole cfgPlain).1)],
       some (.api (.other "boom"))) ∧
    Sync (.caller 0) clientPatchBoom cfgPlain .SyncOp =
      ([Call.getObject .background .service "k8sgpt" cfgPlain.ns,
        Call.createOrPatch (.caller 0) (.service (GetService cfgPlain).1) false 0],
       some (.api (.other "boom"))) :=
  ⟨(C5_idempotency_and_abort (.caller 0) clientAlreadyExists cfgPlain).1
      rfl (by decide) rfl rfl (fun _ _ => rfl),
   (C5_idempotency_and_abort (.caller 0) clientDeleteNotFound cfgPlain).2.1
      (by decide) (fun _ => rfl),
   (C5_idempotency_and_abort (.caller 0) clientDeleteBoom cfgPlain).2.2.1
      (.other "boom") rfl (by decide) rfl rfl rfl,
   (C5_idempotency_and_abort (.caller 0) clientPatchBoom cfgPlain).2.2.2
      (.other "boom") rfl rfl rfl (by decide) rfl rfl⟩

/-- Every call the retry loop issues comes from one of the attempts, so a
property holding of every attempt's calls holds of the whole trace. -/
theorem retryOnConflictGo_all (p : Call → Bool) (fn : Nat → List Call × Option ApiError)
    (h : ∀ n, (fn n).1.all p = true) :
    ∀ steps attempt last, (retryOnConflictGo fn steps attempt last).1.all p = true := by
  intro steps
  induction steps with
  | zero => intro attempt last; simp [retryOnConflictGo]
  | succ s ih =>
      intro attempt last
      simp only [retryOnConflictGo]
      rcases hfn : fn attempt with ⟨calls, r⟩
      have hcalls : calls.all p = true := by
        have := h attempt
        rw [hfn] at this
        exact this
      rcases r with _ | e
      · simpa using hcalls
      · by_cases hc : e.isConflict = true
        · rcases hrec : retryOnConflictGo fn s (attempt + 1) (some e) with ⟨calls2, r2⟩
          have h2 : calls2.all p = true := by
            have := ih (attempt + 1) (some e)
            rw [hrec] at this
            exact this
          simp [hc, hrec, List.all_append, hcalls, h2]
        · simp only [Bool.not_eq_true] at hc
          simpa [hc] using hcalls

/-- When every attempt conflicts, the loop runs its whole budget and
surfaces the conflict. -/
theorem retryOnConflictGo_conflict (p : Call → Bool)
    (fn : Nat → List Call × Option ApiError)
    (h : ∀ n, (fn n).2 = some ApiError.conflict)
    (hone : ∀ n, (fn n).1.countP p = 1) :
    ∀ steps, 0 < steps → ∀ attempt last,
      (retryOnConflictGo fn steps attempt last).2 = some ApiError.conflict ∧
      (retryOnConflictGo fn steps attempt last).1.countP p = steps := by
  intro steps
  induction steps with
  | zero => intro hpos; exact absurd hpos (by simp)
  | succ s ih =>
      intro _ attempt last
      simp only [retryOnConflictGo]
      rcases hfn : fn attempt with ⟨calls, r⟩
      have hr : r = some ApiError.conflict := by
        have := h attempt
        rw [hfn] at this
        exact this
      have hc : calls.countP p = 1 := by
        have := hone attempt
        rw [hfn] at this
        exact this
      subst hr
      rcases Nat.eq_zero_or_pos s with hs | hs
      · subst hs
        simp [retryOnConflictGo, ApiError.isConflict, hc]
      · rcases hrec : retryOnConflictGo fn s (attempt + 1) (some .conflict) with ⟨calls2, r2⟩
        have h2 := ih hs (attempt + 1) (some .conflict)
        rw [hrec] at h2
        simp only [ApiError.isConflict, hrec]
        simp [List.countP_append, hc, h2.1, h2.2, Nat.add_comm]

/-- An oracle whose Deployment fetch finds an existing object. -/
def clientDepFound (exist : Deployment) : Client :=
  { clientAllOk with deploymentGet := .ok exist }

/-- An existing cluster Deployment with non-trivial metadata and status. -/
def existingDep : Deployment :=
  { metadata := { name := DeploymentName, ns := "default",
                  labels := [("stamped-by", "someone-else")] }
    spec := { replicas := 4 }
    status := { replicas := 4, readyReplicas := 3, availableReplicas := 3 } }

/-- C6: only Deployment and Service get a merge function; when the
existing object is found, every object the create-or-patch applies is the
EXISTING object with only its spec replaced by the desired spec (metadata
and status are the existing ones), with the merge flag set; when absent
(and always, for the other three kinds) the desired object is applied
verbatim with no merge function. -/
theorem C6_merge_overwrites_spec_only (ctx : GoContext) (clt : Client) :
    (∀ expect exist, clt.deploymentGet = .ok exist →
       (doSync ctx clt (.deployment expect)).1.all
         (fun call =>
           match call with
           | .createOrPatch _ o m _ =>
               o == K8sObject.deployment
                 { metadata := exist.metadata, spec := expect.spec,
                   status := exist.status } && m
           | _ => true) = true) ∧
    (∀ expect exist, clt.serviceGet = .ok exist →
       (doSync ctx clt (.service expect)).1.all
         (fun call =>
           match call with
           | .createOrPatch _ o m _ =>
               o == K8sObject.service
                 { metadata := exist.metadata, spec := expect.spec,
                   status := exist.status } && m
           | _ => true) = true) ∧
    (∀ expect, clt.deploymentGet = .error .notFound →
       (doSync ctx clt (.deployment expect)).1.all
         (fun call =>
           match call with
           | .createOrPatch _ o m _ => o == K8sObject.deployment expect && !m
           | _ => true) = true) ∧
    (∀ expect, clt.serviceGet = .error .notFound →
       (doSync ctx clt (.service expect)).1.all
         (fun call =>
           match call with
           | .createOrPatch _ o m _ => o == K8sObject.service expect && !m
           | _ => true) = true) ∧
    (∀ obj, obj.objKind ≠ .deployment → obj.objKind ≠ .service →
       (doSync ctx clt obj).1.all
         (fun call =>
           match call with
           | .createOrPatch _ o m _ => o == obj && !m
           | _ => true) = true) := by
  refine ⟨fun expect exist hdg => ?_, fun expect exist hsg => ?_,
          fun expect hdg => ?_, fun expect hsg => ?_, fun obj h1 h2 => ?_⟩
  · simp only [doSync, hdg]
    rcases hretry : retryOnConflictGo _ defaultRetrySteps 0 none with ⟨calls, r⟩
    have := retryOnConflictGo_all
      (fun call =>
        match call with
        | .createOrPatch _ o m _ =>
            o == K8sObject.deployment
              { metadata := exist.metadata, spec := expect.spec,
                status := exist.status } && m
        | _ => true)
      (fun n => ([Call.createOrPatch ctx
          (.deployment { exist with spec := expect.spec }) true n],
          clt.createOrPatch .deployment n))
      (by intro n; simp) defaultRetrySteps 0 none
    rw [hretry] at this
    simpa [hretry] using this
  · simp only [doSync, hsg]
    rcases hretry : retryOnConflictGo _ defaultRetrySteps 0 none with ⟨calls, r⟩
    have := retryOnConflictGo_all
      (fun call =>
        match call with
        | .createOrPatch _ o m _ =>
            o == K8sObject.service
              { metadata := exist.metadata, spec := expect.spec,
                status := exist.status } && m
        | _ => true)
      (fun n => ([Call.createOrPatch ctx
          (.service { exist with spec := expect.spec }) true n],
          clt.createOrPatch .service n))
      (by intro n; simp) defaultRetrySteps 0 none
    rw [hretry] at this
    simpa [hretry] using this
  · simp only [doSync, hdg, ApiError.isNotFound]
    rcases hretry : retryOnConflictGo _ defaultRetrySteps 0 none with ⟨calls, r⟩
    have := retryOnConflictGo_all
      (fun call =>
        match call with
        | .createOrPatch _ o m _ => o == K8sObject.deployment expect && !m
        | _ => true)
      (fun n => ([Call.createOrPatch ctx (.deployment expect) false n],
          clt.createOrPatch .deployment n))
      (by intro n; simp) defaultRetrySteps 0 none
    rw [hretry] at this
    simpa [hretry] using this
  · simp only [doSync, hsg, ApiError.isNotFound]
    rcases hretry : retryOnConflictGo _ defaultRetrySteps 0 none with ⟨calls, r⟩
    have := retryOnConflictGo_all
      (fun call =>
        match call with
        | .createOrPatch _ o m _ => o == K8sObject.service expect && !m
        | _ => true)
      (fun n => ([Call.createOrPatch ctx (.service expect) false n],
          clt.createOrPatch .service n))
      (by intro n; simp) defaultRetrySteps 0 none
    rw [hretry] at this
    simpa [hretry] using this
  · cases obj with
    | deployment d => exact absurd rfl h1
    | service s => exact absurd rfl h2
    | serviceAccount sa =>
        exact retryOnConflictGo_all _ _ (by intro n; simp) defaultRetrySteps 0 none
    | clusterRole cr =>
        exact retryOnConflictGo_all _ _ (by intro n; simp) defaultRetrySteps 0 none
    | clusterRoleBinding crb =>
        exact retryOnConflictGo_all _ _ (by intro n; simp) defaultRetrySteps 0 none

/-- C6 witness: the found-Deployment part of the theorem at a concrete
existing object (metadata and status visibly different from the desired
object's). -/
theorem C6_witness :
    (clientDepFound existingDep).deploymentGet = .ok existingDep ∧
    (doSync (.caller 0) (clientDepFound existingDep)
        (.deployment (GetDeployment cfgPlain).1)).1.all
      (fun call =>
        match call with
        | .createOrPatch _ o m _ =>
            o == K8sObject.deployment
              { metadata := existingDep.metadata,
                spec := (GetDeployment cfgPlain).1.spec,
                status := existingDep.status } && m
        | _ => true) = true :=
  ⟨rfl,
   (C6_merge_overwrites_spec_only (.caller 0) (clientDepFound existingDep)).1
     (GetDeployment cfgPlain).1 existingDep rfl⟩

/-- An oracle whose create-or-patch conflicts on the first attempt and
succeeds on the second. -/
def clientConflictOnce : Client :=
  { clientAllOk with createOrPatch := fun _ n => if n = 0 then some .conflict else none }

/-- An oracle whose create-or-patch conflicts on every attempt. -/
def clientConflictAlways : Client :=
  { clientAllOk with createOrPatch := fun _ _ => some .conflict }

/-- C7: `doSync` wraps create-or-patch in the default bounded retry loop
that retries exactly on conflicts: a first-attempt conflict leads to a
second attempt (retry before success), unresolved conflicts exhaust the
`defaultRetrySteps` budget and surface the conflict error, and a
non-conflict error is returned after a single attempt. -/
theorem C7_conflict_retry (ctx : GoContext) (clt : Client) (obj : K8sObject)
    (hdg : clt.deploymentGet = .error .notFound)
    (hsg : clt.serviceGet = .error .notFound) :
    (clt.createOrPatch obj.objKind 0 = some .conflict →
       clt.createOrPatch obj.objKind 1 = none →
       (doSync ctx clt obj).2 = none ∧
       (doSync ctx clt obj).1.countP (fun call => call.isCreateOrPatch) = 2) ∧
    ((∀ n, clt.createOrPatch obj.objKind n = some .conflict) →
       (doSync ctx clt obj).2 = some .conflict ∧
       (doSync ctx clt obj).1.countP (fun call => call.isCreateOrPatch) = defaultRetrySteps) ∧
    (∀ e, e.isConflict = false →
       clt.createOrPatch obj.objKind 0 = some e →
       (doSync ctx clt obj).2 = some e ∧
       (doSync ctx clt obj).1.countP (fun call => call.isCreateOrPatch) = 1) := by
  refine ⟨fun h0 h1 => ?_, fun hall => ?_, fun e hce h0 => ?_⟩
  · cases obj <;>
      simp only [K8sObject.objKind] at h0 h1 <;>
      simp [doSync, hdg, hsg, ApiError.isNotFound, retryOnConflictGo, defaultRetrySteps,
        h0, h1, ApiError.isConflict, Call.isCreateOrPatch, List.countP_cons,
        K8sObject.objKind]
  · cases obj with
    | service s =>
        have h2 := retryOnConflictGo_conflict (fun call => call.isCreateOrPatch)
          (fun n => ([Call.createOrPatch ctx (.service s) false n],
              clt.createOrPatch .service n))
          (by intro n; simpa [K8sObject.objKind] using hall n)
          (by intro n; simp [Call.isCreateOrPatch])
          defaultRetrySteps (by simp [defaultRetrySteps]) 0 none
        rcases hretry : retryOnConflictGo _ defaultRetrySteps 0 none with ⟨calls, r⟩
        rw [hretry] at h2
        obtain ⟨h2r, h2c⟩ := h2
        simp only [Call.isCreateOrPatch] at h2c
        simp [doSync, hsg, ApiError.isNotFound, hretry, List.countP_cons,
          Call.isCreateOrPatch, h2r, h2c]
    | deployment d =>
        have h2 := retryOnConflictGo_conflict (fun call => call.isCreateOrPatch)
          (fun n => ([Call.createOrPatch ctx (.deployment d) false n],
              clt.createOrPatch .deployment n))
          (by intro n; simpa [K8sObject.objKind] using hall n)
          (by intro n; simp [Call.isCreateOrPatch])
          defaultRetrySteps (by simp [defaultRetrySteps]) 0 none
        rcases hretry : retryOnConflictGo _ defaultRetrySteps 0 none with ⟨calls, r⟩
        rw [hretry] at h2
        obtain ⟨h2r, h2c⟩ := h2
        simp only [Call.isCreateOrPatch] at h2c
        simp [doSync, hdg, ApiError.isNotFound, hretry, List.countP_cons,
          Call.isCreateOrPatch, h2r, h2c]
    | serviceAccount sa =>
        have h2 := retryOnConflictGo_conflict (fun call => call.isCreateOrPatch)
          (fun n => ([Call.createOrPatch ctx (.serviceAccount sa) false n],
              clt.createOrPatch .serviceAccount n))
          (by intro n; simpa [K8sObject.objKind] using hall n)
          (by intro n; simp [Call.isCreateOrPatch])
          defaultRetrySteps (by simp [defaultRetrySteps]) 0 none
        simpa [doSync, K8sObject.objKind] using h2
    | clusterRole cr =>
        have h2 := retryOnConflictGo_conflict (fun call => call.isCreateOrPatch)
          (fun n => ([Call.createOrPatch ctx (.clusterRole cr) false n],
              clt.createOrPatch .clusterRole n))
          (by intro n; simpa [K8sObject.objKind] using hall n)
          (by intro n; simp [Call.isCreateOrPatch])
          defaultRetrySteps (by simp [defaultRetrySteps]) 0 none
        simpa [doSync, K8sObject.objKind] using h2
    | clusterRoleBinding crb =>
        have h2 := retryOnConflictGo_conflict (fun call => call.isCreateOrPatch)
          (fun n => ([Call.createOrPatch ctx (.clusterRoleBinding crb) false n],
              clt.createOrPatch .clusterRoleBinding n))
          (by intro n; simpa [K8sObject.objKind] using hall n)
          (by intro n; simp [Call.isCreateOrPatch])
          defaultRetrySteps (by simp [defaultRetrySteps]) 0 none
        simpa [doSync, K8sObject.objKind] using h2
  · cases obj <;>
      simp only [K8sObject.objKind] at h0 <;>
      simp [doSync, hdg, hsg, ApiError.isNotFound, retryOnConflictGo, defaultRetrySteps,
        h0, hce, Call.isCreateOrPatch, List.countP_cons, K8sObject.objKind]

/-- C7 witness: the three parts at a concrete ClusterRole object with the
three concrete conflict behaviours. -/
theorem C7_witness :
    ((doSync (.caller 0) clientConflictOnce
        (.clusterRole (GetClusterRole cfgPlain).1)).2 = none ∧
     (doSync (.caller 0) clientConflictOnce
        (.clusterRole (GetClusterRole cfgPlain).1)).1.countP
       (fun call => call.isCreateOrPatch) = 2) ∧
    ((doSync (.caller 0) clientConflictAlways
        (.clusterRole (GetClusterRole cfgPlain).1)).2 = some .conflict ∧
     (doSync (.caller 0) clientConflictAlways
        (.clusterRole (GetClusterRole cfgPlain).1)).1.countP
       (fun call => call.isCreateOrPatch) = defaultRetrySteps) ∧
    ((doSync (.caller 0) clientPatchBoom
        (.clusterRole (GetClusterRole cfgPlain).1)).2 = some (.other "boom") ∧
     (doSync (.caller 0) clientPatchBoom
        (.clusterRole (GetClusterRole cfgPlain).1)).1.countP
       (fun call => call.isCreateOrPatch) = 1) :=
  ⟨(C7_conflict_retry (.caller 0) clientConflictOnce
      (.clusterRole (GetClusterRole cfgPlain).1) rfl rfl).1 rfl rfl,
   (C7_conflict_retry (.caller 0) clientConflictAlways
      (.clusterRole (GetClusterRole cfgPlain).1) rfl rfl).2.1 (fun _ => rfl),
   (C7_conflict_retry (.caller 0) clientPatchBoom
      (.clusterRole (GetClusterRole cfgPlain).1) rfl rfl).2.2
     (.other "boom") rfl rfl⟩

/-- The context discipline the source actually implements: the secret
fetch, the create-or-patch and the delete carry the caller's context,
while `doSync`'s two existence fetches carry `context.Background()`. -/
def ctxOk (ctx : GoContext) : Call → Bool
  | .getSecret cc _ _ => cc == ctx
  | .getObject cc _ _ _ => cc == GoContext.background
  | .createOrPatch cc _ _ _ => cc == ctx
  | .delete cc _ => cc == ctx

/-- Every call `doSync` issues obeys the context discipline. -/
theorem doSync_ctxOk (ctx : GoContext) (clt : Client) (obj : K8sObject) :
    (doSync ctx clt obj).1.all (ctxOk ctx) = true := by
  cases obj with
  | deployment d =>
      simp only [doSync]
      rcases clt.deploymentGet with e | exist
      · by_cases hnf : e.isNotFound = true
        · rcases hretry : retryOnConflictGo _ defaultRetrySteps 0 none with ⟨calls, r⟩
          have := retryOnConflictGo_all (ctxOk ctx)
            (fun n => ([Call.createOrPatch ctx (.deployment d) false n],
                clt.createOrPatch .deployment n))
            (by intro n; simp [ctxOk]) defaultRetrySteps 0 none
          rw [hretry] at this
          simp [hnf, hretry, ctxOk, this]
        · simp only [Bool.not_eq_true] at hnf
          simp [hnf, ctxOk]
      · have := retryOnConflictGo_all (ctxOk ctx)
          (fun n => ([Call.createOrPatch ctx
              (.deployment { exist with spec := d.spec }) true n],
              clt.createOrPatch .deployment n))
          (by intro n; simp [ctxOk]) defaultRetrySteps 0 none
        simp [ctxOk, this]
  | service s =>
      simp only [doSync]
      rcases clt.serviceGet with e | exist
      · by_cases hnf : e.isNotFound = true
        · rcases hretry : retryOnConflictGo _ defaultRetrySteps 0 none with ⟨calls, r⟩
          have := retryOnConflictGo_all (ctxOk ctx)
            (fun n => ([Call.createOrPatch ctx (.service s) false n],
                clt.createOrPatch .service n))
            (by intro n; simp [ctxOk]) defaultRetrySteps 0 none
          rw [hretry] at this
          simp [hnf, hretry, ctxOk, this]
        · simp only [Bool.not_eq_true] at hnf
          simp [hnf, ctxOk]
      · have := retryOnConflictGo_all (ctxOk ctx)
          (fun n => ([Call.createOrPatch ctx
              (.service { exist with spec := s.spec }) true n],
              clt.createOrPatch .service n))
          (by intro n; simp [ctxOk]) defaultRetrySteps 0 none
        simp [ctxOk, this]
  | serviceAccount sa =>
      exact retryOnConflictGo_all _ _ (by intro n; simp [ctxOk]) defaultRetrySteps 0 none
  | clusterRole cr =>
      exact retryOnConflictGo_all _ _ (by intro n; simp [ctxOk]) defaultRetrySteps 0 none
  | clusterRoleBinding crb =>
      exact retryOnConflictGo_all _ _ (by intro n; simp [ctxOk]) defaultRetrySteps 0 none

/-- Every call a loop step issues obeys the context discipline. -/
theorem syncStep_ctxOk (ctx : GoContext) (c : Client) (config : K8sGPT)
    (i : SyncOrDestroy) (obj : K8sObject) :
    (syncStep ctx c config i obj).1.all (ctxOk ctx) = true := by
  have hd := doSync_ctxOk ctx c obj
  cases i with
  | SyncOp =>
      simp only [syncStep]
      rcases config.spec.ai.secret with _ | s
      · rcases hds : doSync ctx c obj with ⟨calls, r⟩
        rw [hds] at hd
        rcases r with _ | e
        · simpa [hds] using hd
        · by_cases hae : e.isAlreadyExists = true <;> simp [hds, hae, hd]
      · rcases c.secretGet with _ | e
        · rcases hds : doSync ctx c obj with ⟨calls, r⟩
          rw [hds] at hd
          rcases r with _ | e
          · simp [hds, ctxOk, hd]
          · by_cases hae : e.isAlreadyExists = true <;> simp [hds, hae, ctxOk, hd]
        · simp [ctxOk]
  | DestroyOp =>
      simp only [syncStep]
      rcases c.delete obj.objKind with _ | e
      · simp [ctxOk]
      · by_cases hnf : e.isNotFound = true <;> simp [hnf, ctxOk]

/-- Every call the loop issues obeys the context discipline. -/
theorem syncLoop_ctxOk (ctx : GoContext) (c : Client) (config : K8sGPT)
    (i : SyncOrDestroy) (objs : List K8sObject) :
    (syncLoop ctx c config i objs).1.all (ctxOk ctx) = true := by
  induction objs with
  | nil => simp [syncLoop]
  | cons obj rest ih =>
      simp only [syncLoop]
      have hstep := syncStep_ctxOk ctx c config i obj
      rcases hs : syncStep ctx c config i obj with ⟨calls, r⟩
      rw [hs] at hstep
      rcases hl : syncLoop ctx c config i rest with ⟨calls2, r2⟩
      rw [hl] at ih
      rcases r with _ | e
      · simp [hs, hl, List.all_append, hstep, ih]
      · simp [hs, hstep]

/-- C8 counterexample: with a caller-supplied context distinct from the
background context, the synchronize pass issues calls (the existence
fetches in `doSync`) that do NOT carry the caller's context, refuting the
claim that every cluster call is issued with it. -/
theorem C8_counterexample :
    (Sync (.caller 0) clientAllOk cfgPlain .SyncOp).1.all
      (fun call => call.ctx == GoContext.caller 0) = false := by decide

/-- C8 (amended): every cluster call of a pass carries the caller-supplied
context EXCEPT `doSync`'s two existence fetches, which are issued under a
fresh background context (`context.Background()`). -/
theorem C8_context_discipline (ctx : GoContext) (c : Client) (config : K8sGPT)
    (i : SyncOrDestroy) :
    (Sync ctx c config i).1.all (ctxOk ctx) = true := by
  rcases hgd : GetDeployment config with ⟨d, _ | er⟩
  · simp only [Sync, GetService, GetServiceAccount, GetClusterRole, GetClusterRoleBinding, hgd]
    exact syncLoop_ctxOk ctx c config i _
  · simp [Sync, GetService, GetServiceAccount, GetClusterRole, GetClusterRoleBinding, hgd]

end K8sgpt
